import Mathlib

/-!
Shallow embedding of `src/invoice_processor.py`.

The script polls a mailbox for unseen messages, walks each message's MIME
parts looking for PDF attachments and PDF links inside HTML bodies, feeds
every candidate document through a placeholder extractor, stores one row per
extraction result, marks each message seen, logs out and sends one summary
notification.

Modelling conventions:

* Bytes are `List Nat`; the empty list models both Python `None` and the
  empty byte string returned by `get_payload(decode=True)` (both are falsy
  at the `application/pdf` guard on line 82 of the source).
* A Python dict is an insertion-ordered association list (`Dict`); the value
  `none` models Python `None` (an absent attachment filename). `dictSet`
  models one key assignment as performed by `dict.update`.
* External effects are oracle functions collected in `Env`:
  `extractor` is `extract_invoice_from_pdf` (parameterised, because the
  claims quantify over extraction results; the shipped stub is the constant
  empty mapping), `download` is `urlopen` plus `read` (`none` models a
  raised exception), `storeOk n` says whether the n-th `store_invoice` call
  of the run commits or raises, `markSeenOk i` whether `imap.store` on
  message id `i` returns or raises, `connectOk` whether `connect_mailbox`
  returns or raises (missing credentials or failed login), `selectOk`
  whether `imap.select`/`imap.search` inside `fetch_unseen_messages`
  return or raise.
* Message identifiers are `Nat`. A `Mailbox` gives the id list returned by
  the UNSEEN search and, per id, the fetched message (`none` models the
  `typ != "OK"` branch of `fetch_unseen_messages`, which `continue`s).
* `decode_mime_words` never raises (it falls back to the raw string), so a
  `Message` carries its already-decoded subject.
* The run's observable outcome is a `RunResult`: rows inserted by
  `store_invoice`, the `processed` and `failed` lists, the ids on which a
  mark-seen store was attempted, whether `imap.logout()` ran, the notifier
  calls made, whether `main` was left by an uncaught exception (`crashed`),
  and whether the `except` around `connect_mailbox` logged an error.
-/

namespace InvoiceProc

/-- Values of an extraction mapping: `some s` models a Python string, `none`
models Python `None` (for example a missing attachment filename). -/
abbrev Val := Option String

/-- An extraction-result mapping: a Python dict as an insertion-ordered
association list. -/
abbrev Dict := List (String × Val)

/-- One key assignment of `dict.update`: replace the value at an existing key
in place, otherwise append the new pair at the end (Python dicts keep the
position of an updated key and append new keys). -/
def dictSet (d : Dict) (k : String) (v : Val) : Dict :=
  if d.any (fun p => p.1 == k) then d.map (fun p => if p.1 == k then (k, v) else p)
  else d ++ [(k, v)]

/-- Character class of the PDF-link pattern on line 90 of the source:
every character except ASCII whitespace (the regex class excludes spaces),
the single quote (code 39) and the double quote (code 34). -/
def inCls (c : Char) : Bool :=
  !(c.toNat == 32 || c.toNat == 9 || c.toNat == 10 || c.toNat == 13 ||
    c.toNat == 11 || c.toNat == 12 || c.toNat == 39 || c.toNat == 34)

/-- Does `".pdf"` occur in `run` starting at index `k`? -/
def isPdfAt (run : List Char) (k : Nat) : Bool :=
  (run.drop k).take 4 == ['.', 'p', 'd', 'f']

/-- Index of the last occurrence of `".pdf"` at an index of at least 1 in
`run`: the greedy one-or-more character class backtracks from the right, so
the regex engine commits to the last such occurrence. -/
def lastPdfK (run : List Char) : Option Nat :=
  (List.range run.length).foldl
    (fun acc k => if 1 ≤ k && isPdfAt run k then some k else acc) none

/-- Length of the scheme part matched by the greedy `https?://` head of the
pattern at the head of `s`, if it matches. -/
def schemeLen (s : List Char) : Option Nat :=
  if s.take 8 == "https://".toList then some 8
  else if s.take 7 == "http://".toList then some 7
  else none

/-- Length of the match of the PDF-link regex anchored at the head of `s`,
or `none` when it does not match here. After the scheme, the greedy class
run is maximal; backtracking commits to the last `".pdf"` inside the run
(at index of at least one, since the class needs one or more characters),
and the optional greedy query group then extends the match to the end of
the run when a `?` follows. -/
def matchPdfAt (s : List Char) : Option Nat :=
  match schemeLen s with
  | none => none
  | some pl =>
    let run := (s.drop pl).takeWhile inCls
    match lastPdfK run with
    | none => none
    | some k =>
      if k + 4 < run.length && run.getD (k + 4) ' ' == '?' then some (pl + run.length)
      else some (pl + k + 4)

/-- The scanning loop of `re.findall`: try a match at every position, on
success continue right after the match, otherwise advance one character.
Every step consumes at least one character, so a fuel equal to the length
of the scanned text (as supplied by `findallPdf`) is never exhausted; the
fuel only makes the recursion structural. -/
def scanPdf : Nat → List Char → List String
  | 0, _ => []
  | _, [] => []
  | fuel + 1, c :: rest =>
    match matchPdfAt (c :: rest) with
    | some n => String.mk ((c :: rest).take n) :: scanPdf fuel (rest.drop (n - 1))
    | none => scanPdf fuel rest

/-- `re.findall` of the PDF-link pattern over a decoded HTML body. -/
def findallPdf (html : String) : List String :=
  scanPdf html.toList.length html.toList

/-- One MIME part, as `extract_invoice_info` observes it: its content type,
its declared filename (`get_filename()`, possibly absent), its decoded
payload bytes, and, for `text/html` parts, the charset-decoded text that
line 88 of the source produces from the payload. -/
structure Part where
  contentType : String
  filename : Val
  payload : List Nat
  htmlText : String
  deriving DecidableEq

/-- One fetched email: its MIME-decoded subject and its flattened part walk
(`msg.walk()` order). -/
structure Message where
  subject : String
  parts : List Part
  deriving DecidableEq

/-- Oracles for every external effect of one run; see the module comment. -/
structure Env where
  extractor : List Nat → Dict
  download : String → Option (List Nat)
  storeOk : Nat → Bool
  markSeenOk : Nat → Bool
  connectOk : Bool
  selectOk : Bool
  webhookUrl : Option String
  postOk : Bool

/-- Mail-server state for one run: the UNSEEN search result and the per-id
fetch outcome (`none` models the `typ != "OK"` branch, which `continue`s). -/
structure Mailbox where
  msgIds : List Nat
  fetch : Nat → Option Message

/-- The shipped placeholder parser: returns the empty mapping for every
input. -/
def extract_invoice_from_pdf (_data : List Nat) : Dict := []

/-- Guard of the attachment branch: content type `application/pdf` with a
truthy decoded payload. -/
def isPdfCand (p : Part) : Bool :=
  p.contentType == "application/pdf" && !p.payload.isEmpty

/-- Guard of the HTML branch. -/
def isHtmlPart (p : Part) : Bool :=
  p.contentType == "text/html"

/-- The record built for a PDF attachment: the extraction result with
`source` and `filename` merged in by `info.update`. -/
def attRec (env : Env) (p : Part) : Dict :=
  dictSet (dictSet (env.extractor p.payload) "source" (some "attachment")) "filename" p.filename

/-- The record built for one matched link, when its download succeeds: the
extraction result with `source` and `url` merged in. A failed download
(`none`) is logged and yields nothing for that match. -/
def linkRec (env : Env) (u : String) : Option Dict :=
  (env.download u).map
    (fun b => dictSet (dictSet (env.extractor b) "source" (some "link")) "url" (some u))

/-- Records and attempted downloads contributed by one MIME part: the
`if`/`elif` chain of `extract_invoice_info`. -/
def candidatesOfPart (env : Env) (p : Part) : List Dict × List String :=
  if isPdfCand p then ([attRec env p], [])
  else if isHtmlPart p then
    ((findallPdf p.htmlText).filterMap (linkRec env), findallPdf p.htmlText)
  else ([], [])

/-- Records contributed by a part list, in walk order. -/
def candidates (env : Env) : List Part → List Dict
  | [] => []
  | p :: ps => (candidatesOfPart env p).1 ++ candidates env ps

/-- Download attempts made while walking a part list. -/
def attempts (env : Env) : List Part → List String
  | [] => []
  | p :: ps => (candidatesOfPart env p).2 ++ attempts env ps

/-- `extract_invoice_info`: the result list for one message. -/
def extract_invoice_info (env : Env) (msg : Message) : List Dict :=
  candidates env msg.parts

/-- The URLs for which a download is attempted while extracting one
message. -/
def downloadAttempts (env : Env) (msg : Message) : List String :=
  attempts env msg.parts

/-- The (id, message) pairs produced by the fetch loop of
`fetch_unseen_messages`: ids whose fetch is not OK are skipped. -/
def fetchedPairs (mb : Mailbox) : List (Nat × Message) :=
  mb.msgIds.filterMap (fun i => (mb.fetch i).map (fun m => (i, m)))

/-- `fetch_unseen_messages`: `none` when `imap.select`/`imap.search` raises
(the exception propagates out of `main`). -/
def fetch_unseen_messages (env : Env) (mb : Mailbox) : Option (List (Nat × Message)) :=
  if env.selectOk then some (fetchedPairs mb) else none

/-- Mutable state of the message loop in `main`: the global count of
`store_invoice` calls made so far, the rows committed to the database, the
two summary lists and the ids on which a mark-seen store was attempted. -/
structure St where
  storeCount : Nat
  rows : List (String × Dict)
  processed : List String
  failed : List String
  marked : List Nat
  deriving DecidableEq

/-- Loop state at the start of the run. -/
def initSt : St := ⟨0, [], [], [], []⟩

/-- The `for info in infos: store_invoice(subject, info)` loop: each call
either commits one row or raises, ending the loop. Returns the new call
count, the rows committed by this loop, and whether it finished without an
exception. -/
def storeAll (env : Env) (c : Nat) (subject : String) :
    List Dict → Nat × List (String × Dict) × Bool
  | [] => (c, [], true)
  | d :: ds =>
    if env.storeOk c then
      let r := storeAll env (c + 1) subject ds
      (r.1, (subject, d) :: r.2.1, r.2.2)
    else (c + 1, [], false)

/-- The `try`/`except` body for one message: extract all candidates, then
store them; a non-empty result list with all stores committed appends the
subject to `processed`, an empty result list or a store exception appends
it to `failed` (rows committed before the exception stay in the
database). -/
def handleTry (env : Env) (st : St) (msg : Message) : St :=
  let infos := extract_invoice_info env msg
  if infos.isEmpty then { st with failed := st.failed ++ [msg.subject] }
  else
    let r := storeAll env st.storeCount msg.subject infos
    if r.2.2 then
      { st with storeCount := r.1, rows := st.rows ++ r.2.1,
                processed := st.processed ++ [msg.subject] }
    else
      { st with storeCount := r.1, rows := st.rows ++ r.2.1,
                failed := st.failed ++ [msg.subject] }

/-- One iteration of the message loop: the `try`/`except` body followed by
the `finally` mark-seen attempt, which is always recorded. -/
def handleMessage (env : Env) (st : St) (im : Nat × Message) : St :=
  let st2 := handleTry env st im.2
  { st2 with marked := st2.marked ++ [im.1] }

/-- The message loop of `main`. When the mark-seen store itself raises, the
exception propagates: the loop stops and the second component is `true`
(the run is left by an uncaught exception, skipping logout and
notification). -/
def runLoop (env : Env) : List (Nat × Message) → St → St × Bool
  | [], st => (st, false)
  | im :: rest, st =>
    let st2 := handleMessage env st im
    if env.markSeenOk im.1 then runLoop env rest st2 else (st2, true)

/-- Python `"\n".join`. -/
def joinLines : List String → String
  | [] => ""
  | [a] => a
  | a :: rest => a ++ "\n" ++ joinLines rest

/-- The summary text built at the end of `main`: the processed header and
bullets, then, only when `failed` is non-empty, the failed header and
bullets. -/
def summaryText (ps fs : List String) : String :=
  joinLines (("Processed invoices:" :: ps.map (fun s => " - " ++ s)) ++
    (if fs.isEmpty then [] else "Failed or unrecognized emails:" :: fs.map (fun s => " - " ++ s)))

/-- The webhook payload: the Python dict
`{"msgtype": "text", "text": {"content": summary}}`, modelled by its two
leaf fields. -/
structure Payload where
  msgtype : String
  content : String
  deriving DecidableEq

/-- Outcome of one `send_wechat_notification` call: skipped with a warning
because no URL is configured, or one POST that succeeded or failed (a
failed POST is caught and logged; the call never raises). -/
inductive NotifyResult where
  | skippedNoUrl
  | posted (payload : Payload) (success : Bool)
  deriving DecidableEq

/-- `send_wechat_notification`. -/
def send_wechat_notification (env : Env) (s : String) : NotifyResult :=
  match env.webhookUrl with
  | none => .skippedNoUrl
  | some _ => .posted ⟨"text", s⟩ env.postOk

/-- Everything observable about one run of `main`; see the module comment. -/
structure RunResult where
  connectErrorLogged : Bool
  rows : List (String × Dict)
  processed : List String
  failed : List String
  marked : List Nat
  loggedOut : Bool
  notifyCalls : List NotifyResult
  crashed : Bool
  deriving DecidableEq

/-- `main`. `init_db` (idempotent schema creation) always runs first and is
not part of the observable result; a failed `connect_mailbox` is caught,
logged and ends the run; an exception from `imap.select`/`imap.search` or
from a mark-seen store propagates out of `main` (`crashed`), skipping
logout and notification; otherwise the session is logged out and the
notifier is invoked exactly when `processed` or `failed` is non-empty. -/
def main (env : Env) (mb : Mailbox) : RunResult :=
  if env.connectOk then
    match fetch_unseen_messages env mb with
    | none => ⟨false, [], [], [], [], false, [], true⟩
    | some msgs =>
      let r := runLoop env msgs initSt
      if r.2 then
        ⟨false, r.1.rows, r.1.processed, r.1.failed, r.1.marked, false, [], true⟩
      else
        ⟨false, r.1.rows, r.1.processed, r.1.failed, r.1.marked, true,
          (if r.1.processed.isEmpty && r.1.failed.isEmpty then []
           else [send_wechat_notification env (summaryText r.1.processed r.1.failed)]),
          false⟩
  else ⟨true, [], [], [], [], false, [], false⟩

/-- A part list holds a live candidate when it has a PDF part with a truthy
payload, or an HTML part one of whose matched links downloads
successfully. -/
def hasLiveCandidate (env : Env) (ps : List Part) : Bool :=
  ps.any (fun p => isPdfCand p ||
    (isHtmlPart p && (findallPdf p.htmlText).any (fun u => (env.download u).isSome)))

/-- A record consisting solely of provenance fields. -/
def provenanceOnly (d : Dict) : Prop :=
  (∃ f, d = [("source", some "attachment"), ("filename", f)]) ∨
  (∃ u, d = [("source", some "link"), ("url", some u)])

theorem handleTry_marked (env : Env) (st : St) (msg : Message) :
    (handleTry env st msg).marked = st.marked := by
  by_cases h : (extract_invoice_info env msg).isEmpty <;>
    by_cases h2 : (storeAll env st.storeCount msg.subject (extract_invoice_info env msg)).2.2 <;>
      simp [handleTry, h, h2]

theorem handleMessage_marked (env : Env) (st : St) (im : Nat × Message) :
    (handleMessage env st im).marked = st.marked ++ [im.1] := by
  simp [handleMessage, handleTry_marked]

theorem runLoop_no_abort (env : Env) (hm : ∀ i, env.markSeenOk i = true) :
    ∀ (msgs : List (Nat × Message)) (st : St),
      (runLoop env msgs st).2 = false ∧
      (runLoop env msgs st).1.marked = st.marked ++ msgs.map Prod.fst
  | [], st => by simp [runLoop]
  | im :: rest, st => by
    have ih := runLoop_no_abort env hm rest (handleMessage env st im)
    simp [runLoop, hm im.1, ih.1, ih.2, handleMessage_marked]

theorem storeAll_ok (env : Env) (hst : ∀ n, env.storeOk n = true) (s : String) :
    ∀ (ds : List Dict) (c : Nat),
      storeAll env c s ds = (c + ds.length, ds.map (fun d => (s, d)), true)
  | [], c => by simp [storeAll]
  | d :: ds, c => by
    simp [storeAll, hst c, storeAll_ok env hst s ds (c + 1)]
    omega

theorem candidates_append (env : Env) :
    ∀ (a b : List Part), candidates env (a ++ b) = candidates env a ++ candidates env b
  | [], _ => rfl
  | p :: a, b => by simp [candidates, candidates_append env a b]

theorem candidatesOfPart_fst_nil_iff (env : Env) (p : Part) :
    (candidatesOfPart env p).1 = [] ↔
      (isPdfCand p ||
        (isHtmlPart p && (findallPdf p.htmlText).any (fun u => (env.download u).isSome))) = false := by
  unfold candidatesOfPart
  by_cases hq : isPdfCand p
  · simp [hq]
  · by_cases hh : isHtmlPart p
    · simp only [hq, hh, Bool.false_eq_true, ite_false, ite_true, Bool.false_or, Bool.true_and,
        List.filterMap_eq_nil_iff, List.any_eq_false, linkRec, Option.map_eq_none,
        Option.not_isSome_iff_eq_none]
      constructor
      · intro h u hu
        exact Option.map_eq_none'.1 (h u hu)
      · intro h u hu
        exact Option.map_eq_none'.2 (h u hu)
    · simp [hq, hh]

theorem candidates_eq_nil_iff (env : Env) :
    ∀ (ps : List Part), candidates env ps = [] ↔ hasLiveCandidate env ps = false
  | [] => by simp [candidates, hasLiveCandidate]
  | p :: ps => by
    rw [candidates, List.append_eq_nil, candidates_eq_nil_iff env ps,
      candidatesOfPart_fst_nil_iff]
    unfold hasLiveCandidate
    simp [List.any_cons]

theorem mem_dictSet_self (d : Dict) (k : String) (v : Val) : (k, v) ∈ dictSet d k v := by
  unfold dictSet
  split
  · rename_i h
    obtain ⟨p, hp, hpk⟩ := List.any_eq_true.1 h
    refine List.mem_map.2 ⟨p, hp, ?_⟩
    simp [hpk]
  · exact List.mem_append_right _ (List.mem_singleton.2 rfl)

theorem mem_dictSet_of_ne (d : Dict) (k : String) (v : Val) (k2 : String) (v2 : Val)
    (h : (k2, v2) ∈ d) (hne : k2 ≠ k) : (k2, v2) ∈ dictSet d k v := by
  unfold dictSet
  split
  · refine List.mem_map.2 ⟨(k2, v2), h, ?_⟩
    simp [hne]
  · exact List.mem_append_left _ h

theorem mem_of_mem_dictSet_ne (d : Dict) (k : String) (v : Val) (kv : String × Val)
    (h : kv ∈ dictSet d k v) (hne : kv.1 ≠ k) : kv ∈ d := by
  unfold dictSet at h
  split at h
  · obtain ⟨q, hq, hmap⟩ := List.mem_map.1 h
    by_cases hqk : (q.1 == k) = true
    · rw [if_pos hqk] at hmap
      rw [← hmap] at hne
      simp at hne
    · rw [if_neg hqk] at hmap
      rw [← hmap]
      exact hq
  · rcases List.mem_append.1 h with h2 | h2
    · exact h2
    · simp only [List.mem_singleton] at h2
      rw [h2] at hne
      simp at hne

theorem dictSet_value_of_key (d : Dict) (k : String) (v : Val) (kv : String × Val)
    (h : kv ∈ dictSet d k v) (hk : kv.1 = k) : kv = (k, v) := by
  unfold dictSet at h
  split at h
  · obtain ⟨q, hq, hmap⟩ := List.mem_map.1 h
    by_cases hqk : (q.1 == k) = true
    · rw [if_pos hqk] at hmap
      exact hmap.symm
    · rw [if_neg hqk] at hmap
      exact absurd (by simp [hmap, hk]) hqk
  · rename_i hany
    rcases List.mem_append.1 h with h2 | h2
    · exact absurd (List.any_eq_true.2 ⟨kv, h2, by simp [hk]⟩) hany
    · simpa using h2

theorem att_not_mem_linkRec (env : Env) (u : String) (d : Dict)
    (h : linkRec env u = some d) : ("source", (some "attachment" : Val)) ∉ d := by
  obtain ⟨b, _, hbd⟩ := Option.map_eq_some'.1 h
  intro hmem
  rw [← hbd] at hmem
  have h1 : ("source", (some "attachment" : Val)) ∈
      dictSet (env.extractor b) "source" (some "link") :=
    mem_of_mem_dictSet_ne _ _ _ _ hmem (by decide)
  have h2 := dictSet_value_of_key _ _ _ _ h1 rfl
  simp at h2

theorem no_att_of_no_pdf (env : Env) : ∀ (ps : List Part), ps.filter isPdfCand = [] →
    ∀ d ∈ candidates env ps, ("source", (some "attachment" : Val)) ∉ d
  | [], _, d, hd => by simp [candidates] at hd
  | q :: ps, h, d, hd => by
    have hq : isPdfCand q = false := by
      by_cases hq2 : isPdfCand q
      · simp [List.filter_cons, hq2] at h
      · rw [Bool.not_eq_true] at hq2
        exact hq2
    have hrest : ps.filter isPdfCand = [] := by
      simpa [List.filter_cons, hq] using h
    rw [candidates, List.mem_append] at hd
    rcases hd with hd | hd
    · unfold candidatesOfPart at hd
      rw [if_neg (by simp [hq])] at hd
      by_cases hh : isHtmlPart q
      · rw [if_pos hh] at hd
        simp only [List.mem_filterMap] at hd
        obtain ⟨u2, _, hu⟩ := hd
        exact att_not_mem_linkRec env u2 d hu
      · rw [if_neg hh] at hd
        simp at hd
    · exact no_att_of_no_pdf env ps hrest d hd

theorem filter_att_eq_nil : ∀ (cs : List Dict),
    (∀ d ∈ cs, ("source", (some "attachment" : Val)) ∉ d) →
    cs.filter (fun d => decide (("source", (some "attachment" : Val)) ∈ d)) = []
  | [], _ => rfl
  | d :: cs, h => by
    have h1 : ("source", (some "attachment" : Val)) ∉ d := h d (by simp)
    have h2 := filter_att_eq_nil cs (fun d2 hd2 => h d2 (by simp [hd2]))
    simp [List.filter_cons, h1, h2]

theorem filter_att_map_pair (s : String) : ∀ (cs : List Dict),
    (cs.map (fun d => (s, d))).filter
        (fun r => decide (("source", (some "attachment" : Val)) ∈ r.2)) =
      (cs.filter (fun d => decide (("source", (some "attachment" : Val)) ∈ d))).map
        (fun d => (s, d))
  | [] => rfl
  | d :: cs => by
    by_cases h : ("source", (some "attachment" : Val)) ∈ d
    · simp [List.filter_cons, h, filter_att_map_pair s cs]
    · simp [List.filter_cons, h, filter_att_map_pair s cs]

theorem candidates_filter_attachment (env : Env) (p : Part) : ∀ (ps : List Part),
    ps.filter isPdfCand = [p] →
    (candidates env ps).filter
        (fun d => decide (("source", (some "attachment" : Val)) ∈ d)) = [attRec env p]
  | [], h => by simp at h
  | q :: ps, h => by
    rw [candidates, List.filter_append]
    by_cases hq : isPdfCand q
    · have h2 : q = p ∧ ps.filter isPdfCand = [] := by
        simpa [List.filter_cons, hq] using h
      obtain ⟨rfl, hrest⟩ := h2
      have hmem : ("source", (some "attachment" : Val)) ∈ attRec env q :=
        mem_dictSet_of_ne _ _ _ _ _ (mem_dictSet_self _ _ _) (by decide)
      have hfirst : (candidatesOfPart env q).1.filter
          (fun d => decide (("source", (some "attachment" : Val)) ∈ d)) = [attRec env q] := by
        unfold candidatesOfPart
        rw [if_pos hq]
        simp [List.filter_cons, hmem]
      have hsecond : (candidates env ps).filter
          (fun d => decide (("source", (some "attachment" : Val)) ∈ d)) = [] :=
        filter_att_eq_nil _ (no_att_of_no_pdf env ps hrest)
      rw [hfirst, hsecond]
      simp
    · rw [Bool.not_eq_true] at hq
      have hrest : ps.filter isPdfCand = [p] := by
        simpa [List.filter_cons, hq] using h
      have hq1 : List.filter isPdfCand [q] = [] := by
        simp [List.filter_cons, hq]
      have hfirst : (candidatesOfPart env q).1.filter
          (fun d => decide (("source", (some "attachment" : Val)) ∈ d)) = [] := by
        refine filter_att_eq_nil _ ?_
        intro d hd
        refine no_att_of_no_pdf env [q] hq1 d ?_
        simpa [candidates] using hd
      rw [hfirst, candidates_filter_attachment env p ps hrest]
      simp

theorem main_single (env : Env) (id : Nat) (m : Message)
    (hc : env.connectOk = true) (hs : env.selectOk = true)
    (hm : env.markSeenOk id = true) :
    main env ⟨[id], fun _ => some m⟩ =
      (let st := handleMessage env initSt (id, m)
       ⟨false, st.rows, st.processed, st.failed, st.marked, true,
        (if st.processed.isEmpty && st.failed.isEmpty then []
         else [send_wechat_notification env (summaryText st.processed st.failed)]),
        false⟩) := by
  simp [main, hc, fetch_unseen_messages, hs, fetchedPairs, runLoop, hm]

theorem main_no_abort (env : Env) (mb : Mailbox)
    (hc : env.connectOk = true) (hs : env.selectOk = true)
    (hm : ∀ i, env.markSeenOk i = true) :
    main env mb =
      (let st := (runLoop env (fetchedPairs mb) initSt).1
       ⟨false, st.rows, st.processed, st.failed, st.marked, true,
        (if st.processed.isEmpty && st.failed.isEmpty then []
         else [send_wechat_notification env (summaryText st.processed st.failed)]),
        false⟩) := by
  have h2 := (runLoop_no_abort env hm (fetchedPairs mb) initSt).1
  simp [main, hc, fetch_unseen_messages, hs, h2]

theorem summaryText_single (s : String) :
    summaryText [s] [] = "Processed invoices:\n - " ++ s := by
  simp only [summaryText, List.map_cons, List.map_nil, List.isEmpty_nil, ite_true,
    List.append_nil, joinLines]
  rw [← String.append_assoc]
  rfl

theorem candidates_storeOk_irrel (env : Env) (g : Nat → Bool) :
    ∀ ps, candidates { env with storeOk := g } ps = candidates env ps
  | [] => rfl
  | p :: ps => by
    have hl : linkRec { env with storeOk := g } = linkRec env := by
      funext u
      simp [linkRec]
    simp [candidates, candidatesOfPart, attRec, hl, candidates_storeOk_irrel env g ps]

theorem provenance_stub (env : Env) (hx : env.extractor = extract_invoice_from_pdf) :
    ∀ ps, ∀ d ∈ candidates env ps, provenanceOnly d
  | [], d, hd => by simp [candidates] at hd
  | p :: ps, d, hd => by
    rw [candidates, List.mem_append] at hd
    rcases hd with hd | hd
    · unfold candidatesOfPart at hd
      by_cases hq : isPdfCand p
      · rw [if_pos hq] at hd
        simp only [List.mem_singleton] at hd
        subst hd
        exact Or.inl ⟨p.filename, by simp [attRec, hx, extract_invoice_from_pdf, dictSet]⟩
      · by_cases hh : isHtmlPart p
        · rw [if_neg hq, if_pos hh] at hd
          simp only [List.mem_filterMap] at hd
          obtain ⟨u, _, hu⟩ := hd
          refine Or.inr ⟨u, ?_⟩
          unfold linkRec at hu
          obtain ⟨b, _, hbd⟩ := Option.map_eq_some'.1 hu
          rw [← hbd]
          simp [hx, extract_invoice_from_pdf, dictSet]
        · rw [if_neg hq, if_neg hh] at hd
          simp at hd
    · exact provenance_stub env hx ps d hd

/-- Claim C2 counterexample: a mailbox whose UNSEEN search returns id 5 but
whose fetch fails (`typ != "OK"`). The id is silently skipped by
`fetch_unseen_messages`, so no mark-seen store is ever attempted for it,
refuting "attempted exactly once for every identifier returned by the
search, including when fetching fails". -/
theorem C2_counterexample :
    (Mailbox.mk [5] (fun _ => none)).msgIds = [5] ∧
    (main ⟨extract_invoice_from_pdf, fun _ => none, fun _ => true, fun _ => true,
        true, true, none, true⟩ ⟨[5], fun _ => none⟩).marked = [] :=
  ⟨rfl, rfl⟩

/-- Claim C2 (corrected): the mark-seen store is attempted exactly once per
message whose fetch succeeded (in fetch order), for any extractor, download
and store behaviour, provided the run connects, the select succeeds and no
mark-seen call itself raises; identifiers whose fetch failed are absent. -/
theorem C2_mark_seen_per_fetched (env : Env) (mb : Mailbox)
    (hc : env.connectOk = true) (hs : env.selectOk = true)
    (hm : ∀ i, env.markSeenOk i = true) :
    (main env mb).marked = (fetchedPairs mb).map Prod.fst := by
  rw [main_no_abort env mb hc hs hm]
  have h := (runLoop_no_abort env hm (fetchedPairs mb) initSt).2
  simpa [initSt] using h

/-- Witness for C2 at a concrete two-message mailbox. -/
theorem C2_witness :
    (∀ i, (⟨extract_invoice_from_pdf, fun _ => none, fun _ => true, fun _ => true,
        true, true, none, true⟩ : Env).markSeenOk i = true) ∧
    (main ⟨extract_invoice_from_pdf, fun _ => none, fun _ => true, fun _ => true,
        true, true, none, true⟩ ⟨[3, 4], fun _ => some ⟨"S", []⟩⟩).marked =
      (fetchedPairs ⟨[3, 4], fun _ => some ⟨"S", []⟩⟩).map Prod.fst :=
  ⟨fun _ => rfl, C2_mark_seen_per_fetched _ _ rfl rfl (fun _ => rfl)⟩

/-- Claim C3 counterexample: ids 1 and 2 are returned by the search, the
fetch of id 1 fails and the fetch of id 2 succeeds. Processing continues
with id 2, but contrary to the claim no mark-seen store is attempted for
id 1 and nothing is recorded in `failed` for it. -/
theorem C3_counterexample :
    (Mailbox.mk [1, 2] (fun i => if i == 2 then some ⟨"S2", []⟩ else none)).msgIds = [1, 2] ∧
    (main ⟨extract_invoice_from_pdf, fun _ => none, fun _ => true, fun _ => true,
        true, true, none, true⟩
      ⟨[1, 2], fun i => if i == 2 then some ⟨"S2", []⟩ else none⟩).marked = [2] ∧
    (main ⟨extract_invoice_from_pdf, fun _ => none, fun _ => true, fun _ => true,
        true, true, none, true⟩
      ⟨[1, 2], fun i => if i == 2 then some ⟨"S2", []⟩ else none⟩).failed = ["S2"] ∧
    (main ⟨extract_invoice_from_pdf, fun _ => none, fun _ => true, fun _ => true,
        true, true, none, true⟩
      ⟨[1, 2], fun i => if i == 2 then some ⟨"S2", []⟩ else none⟩).processed = [] :=
  ⟨rfl, rfl, rfl, rfl⟩

/-- Claim C3 (corrected): when the fetch of one id fails, the remaining ids
are processed exactly as if the failed id had not been returned at all —
its extraction is skipped, and, contrary to the claim, it is neither marked
seen nor recorded as failed; the whole run result is unchanged. -/
theorem C3_failed_fetch_skipped (env : Env) (f : Nat → Option Message)
    (badId : Nat) (rest : List Nat) (hbad : f badId = none) :
    main env ⟨badId :: rest, f⟩ = main env ⟨rest, f⟩ := by
  simp [main, fetch_unseen_messages, fetchedPairs, List.filterMap_cons, hbad]

/-- Witness for C3: id 7 fails to fetch, id 8 succeeds. -/
theorem C3_witness :
    (fun i => if i == 7 then none else some (⟨"A", []⟩ : Message)) 7 = none ∧
    main ⟨extract_invoice_from_pdf, fun _ => none, fun _ => true, fun _ => true,
        true, true, none, true⟩
      ⟨7 :: [8], fun i => if i == 7 then none else some ⟨"A", []⟩⟩ =
    main ⟨extract_invoice_from_pdf, fun _ => none, fun _ => true, fun _ => true,
        true, true, none, true⟩
      ⟨[8], fun i => if i == 7 then none else some ⟨"A", []⟩⟩ :=
  ⟨rfl, C3_failed_fetch_skipped _ _ 7 [8] rfl⟩

/-- Claim C4 counterexample: the mark-seen store for message 1 raises. The
exception propagates out of the loop, so `imap.logout()` is never reached
and message 2 is neither processed nor marked, refuting "logout is invoked
even if the mark-seen call raises" and "a single message failure never
prevents the remaining messages from being processed". -/
theorem C4_counterexample :
    (main ⟨extract_invoice_from_pdf, fun _ => none, fun _ => true, fun i => i != 1,
        true, true, none, true⟩ ⟨[1, 2], fun _ => some ⟨"S", []⟩⟩).loggedOut = false ∧
    (main ⟨extract_invoice_from_pdf, fun _ => none, fun _ => true, fun i => i != 1,
        true, true, none, true⟩ ⟨[1, 2], fun _ => some ⟨"S", []⟩⟩).crashed = true ∧
    (main ⟨extract_invoice_from_pdf, fun _ => none, fun _ => true, fun i => i != 1,
        true, true, none, true⟩ ⟨[1, 2], fun _ => some ⟨"S", []⟩⟩).marked = [1] ∧
    (Mailbox.mk [1, 2] (fun _ => some ⟨"S", []⟩)).msgIds = [1, 2] :=
  ⟨rfl, rfl, rfl, rfl⟩

/-- Claim C4 (corrected): after a successful session open, logout is invoked
and the run does not crash, for any extractor, download and store behaviour
(exceptions while extracting or storing one message are caught and prevent
neither the remaining messages nor logout), provided no mark-seen call
itself raises; under the same proviso every fetched message is marked. -/
theorem C4_logout_when_marks_return (env : Env) (mb : Mailbox)
    (hc : env.connectOk = true) (hs : env.selectOk = true)
    (hm : ∀ i, env.markSeenOk i = true) :
    (main env mb).loggedOut = true ∧ (main env mb).crashed = false ∧
    (main env mb).marked = (fetchedPairs mb).map Prod.fst := by
  rw [main_no_abort env mb hc hs hm]
  refine ⟨rfl, rfl, ?_⟩
  have h := (runLoop_no_abort env hm (fetchedPairs mb) initSt).2
  simpa [initSt] using h

/-- Witness for C4: every store raises, yet the run logs out and marks the
message seen. -/
theorem C4_witness :
    (∀ i, (⟨fun _ => [("k", some "v")], fun _ => none, fun _ => false, fun _ => true,
        true, true, none, true⟩ : Env).markSeenOk i = true) ∧
    ((main ⟨fun _ => [("k", some "v")], fun _ => none, fun _ => false, fun _ => true,
        true, true, none, true⟩
      ⟨[1], fun _ => some ⟨"S", [⟨"application/pdf", some "f.pdf", [1], ""⟩]⟩⟩).loggedOut = true ∧
     (main ⟨fun _ => [("k", some "v")], fun _ => none, fun _ => false, fun _ => true,
        true, true, none, true⟩
      ⟨[1], fun _ => some ⟨"S", [⟨"application/pdf", some "f.pdf", [1], ""⟩]⟩⟩).crashed = false ∧
     (main ⟨fun _ => [("k", some "v")], fun _ => none, fun _ => false, fun _ => true,
        true, true, none, true⟩
      ⟨[1], fun _ => some ⟨"S", [⟨"application/pdf", some "f.pdf", [1], ""⟩]⟩⟩).marked =
       (fetchedPairs ⟨[1], fun _ => some ⟨"S", [⟨"application/pdf", some "f.pdf", [1], ""⟩]⟩⟩).map
         Prod.fst) :=
  ⟨fun _ => rfl, C4_logout_when_marks_return _ _ rfl rfl (fun _ => rfl)⟩

/-- Claim C5 counterexample: the login succeeds but `imap.select` inside
`fetch_unseen_messages` raises. The run does stop before any iteration with
no rows and no notification, but the failure is not caught and logged by the
error handler of `main` — the exception propagates uncaught (`crashed`), so
the claim that a select failure "is logged" by the run is false. -/
theorem C5_counterexample :
    (main ⟨extract_invoice_from_pdf, fun _ => none, fun _ => true, fun _ => true,
        true, false, none, true⟩ ⟨[9], fun _ => some ⟨"S", []⟩⟩).crashed = true ∧
    (main ⟨extract_invoice_from_pdf, fun _ => none, fun _ => true, fun _ => true,
        true, false, none, true⟩ ⟨[9], fun _ => some ⟨"S", []⟩⟩).connectErrorLogged = false ∧
    (main ⟨extract_invoice_from_pdf, fun _ => none, fun _ => true, fun _ => true,
        true, false, none, true⟩ ⟨[9], fun _ => some ⟨"S", []⟩⟩).rows = [] ∧
    (main ⟨extract_invoice_from_pdf, fun _ => none, fun _ => true, fun _ => true,
        true, false, none, true⟩ ⟨[9], fun _ => some ⟨"S", []⟩⟩).marked = [] ∧
    (main ⟨extract_invoice_from_pdf, fun _ => none, fun _ => true, fun _ => true,
        true, false, none, true⟩ ⟨[9], fun _ => some ⟨"S", []⟩⟩).notifyCalls = [] :=
  ⟨rfl, rfl, rfl, rfl, rfl⟩

/-- Claim C5 (corrected): if connecting (credentials or login) or the inbox
select fails, the run performs no message iteration, inserts no rows,
attempts no mark-seen and makes no notifier call; a connect failure is
caught and logged and `main` returns normally, while a select failure
propagates as an uncaught exception and is not logged by the handler. -/
theorem C5_no_processing_on_open_failure (env : Env) (mb : Mailbox)
    (h : env.connectOk = false ∨ env.selectOk = false) :
    (main env mb).rows = [] ∧ (main env mb).processed = [] ∧ (main env mb).failed = [] ∧
    (main env mb).marked = [] ∧ (main env mb).notifyCalls = [] ∧
    (main env mb).connectErrorLogged = !env.connectOk ∧
    (main env mb).crashed = (env.connectOk && !env.selectOk) := by
  by_cases hc : env.connectOk = true
  · have hsel : env.selectOk = false := by
      rcases h with h | h
      · rw [hc] at h
        cases h
      · exact h
    simp [main, hc, fetch_unseen_messages, hsel]
  · rw [Bool.not_eq_true] at hc
    simp [main, hc]

/-- Witness for C5: missing credentials (connect fails). -/
theorem C5_witness :
    ((⟨extract_invoice_from_pdf, fun _ => none, fun _ => true, fun _ => true,
        false, true, none, true⟩ : Env).connectOk = false ∨
     (⟨extract_invoice_from_pdf, fun _ => none, fun _ => true, fun _ => true,
        false, true, none, true⟩ : Env).selectOk = false) ∧
    ((main ⟨extract_invoice_from_pdf, fun _ => none, fun _ => true, fun _ => true,
        false, true, none, true⟩ ⟨[9], fun _ => some ⟨"S", []⟩⟩).rows = [] ∧
     (main ⟨extract_invoice_from_pdf, fun _ => none, fun _ => true, fun _ => true,
        false, true, none, true⟩ ⟨[9], fun _ => some ⟨"S", []⟩⟩).processed = [] ∧
     (main ⟨extract_invoice_from_pdf, fun _ => none, fun _ => true, fun _ => true,
        false, true, none, true⟩ ⟨[9], fun _ => some ⟨"S", []⟩⟩).failed = [] ∧
     (main ⟨extract_invoice_from_pdf, fun _ => none, fun _ => true, fun _ => true,
        false, true, none, true⟩ ⟨[9], fun _ => some ⟨"S", []⟩⟩).marked = [] ∧
     (main ⟨extract_invoice_from_pdf, fun _ => none, fun _ => true, fun _ => true,
        false, true, none, true⟩ ⟨[9], fun _ => some ⟨"S", []⟩⟩).notifyCalls = [] ∧
     (main ⟨extract_invoice_from_pdf, fun _ => none, fun _ => true, fun _ => true,
        false, true, none, true⟩ ⟨[9], fun _ => some ⟨"S", []⟩⟩).connectErrorLogged =
       (!(⟨extract_invoice_from_pdf, fun _ => none, fun _ => true, fun _ => true,
          false, true, none, true⟩ : Env).connectOk) ∧
     (main ⟨extract_invoice_from_pdf, fun _ => none, fun _ => true, fun _ => true,
        false, true, none, true⟩ ⟨[9], fun _ => some ⟨"S", []⟩⟩).crashed =
       ((⟨extract_invoice_from_pdf, fun _ => none, fun _ => true, fun _ => true,
          false, true, none, true⟩ : Env).connectOk &&
        !(⟨extract_invoice_from_pdf, fun _ => none, fun _ => true, fun _ => true,
          false, true, none, true⟩ : Env).selectOk)) :=
  ⟨Or.inl rfl, C5_no_processing_on_open_failure _ _ (Or.inl rfl)⟩

/-- Claim C1 counterexample: scenario B of the spec run against the code.
One unseen message whose HTML body holds two PDF links, both downloads
succeed and both extractions return the empty mapping. Contrary to the
claim, the empty results are merged with their provenance fields and
persisted, and the message is classified `processed`, not `failed`. -/
theorem C1_counterexample :
    (main ⟨extract_invoice_from_pdf, fun _ => some [37], fun _ => true, fun _ => true,
        true, true, none, true⟩
      ⟨[1], fun _ => some ⟨"Bill",
        [⟨"text/html", none, [],
          "<a href=\"https://x.test/a.pdf\">x</a> <a href=\"https://x.test/b.pdf?token=1\">y</a>"⟩]⟩⟩).processed = ["Bill"] ∧
    (main ⟨extract_invoice_from_pdf, fun _ => some [37], fun _ => true, fun _ => true,
        true, true, none, true⟩
      ⟨[1], fun _ => some ⟨"Bill",
        [⟨"text/html", none, [],
          "<a href=\"https://x.test/a.pdf\">x</a> <a href=\"https://x.test/b.pdf?token=1\">y</a>"⟩]⟩⟩).failed = [] ∧
    (main ⟨extract_invoice_from_pdf, fun _ => some [37], fun _ => true, fun _ => true,
        true, true, none, true⟩
      ⟨[1], fun _ => some ⟨"Bill",
        [⟨"text/html", none, [],
          "<a href=\"https://x.test/a.pdf\">x</a> <a href=\"https://x.test/b.pdf?token=1\">y</a>"⟩]⟩⟩).rows =
      [("Bill", [("source", some "link"), ("url", some "https://x.test/a.pdf")]),
       ("Bill", [("source", some "link"), ("url", some "https://x.test/b.pdf?token=1")])] := by
  decide

/-- Claim C1 (corrected): a candidate whose extraction yields the empty
mapping still produces a record — `info.update` turns the empty dict into a
provenance-only record which is persisted and counts toward `processed`. A
message whose only candidates are two PDF links both returning empty
extraction results is classified `processed`, with two provenance-only
rows persisted and the message marked seen. -/
theorem C1_empty_extraction_processed (env : Env) (id : Nat) (subj : String) (fn : Val)
    (pay : List Nat) (html : String) (u1 u2 : String) (b1 b2 : List Nat)
    (hc : env.connectOk = true) (hs : env.selectOk = true) (hm : env.markSeenOk id = true)
    (hst : ∀ n, env.storeOk n = true)
    (hfind : findallPdf html = [u1, u2])
    (hd1 : env.download u1 = some b1) (hd2 : env.download u2 = some b2)
    (he1 : env.extractor b1 = []) (he2 : env.extractor b2 = []) :
    (main env ⟨[id], fun _ => some ⟨subj, [⟨"text/html", fn, pay, html⟩]⟩⟩).processed = [subj] ∧
    (main env ⟨[id], fun _ => some ⟨subj, [⟨"text/html", fn, pay, html⟩]⟩⟩).failed = [] ∧
    (main env ⟨[id], fun _ => some ⟨subj, [⟨"text/html", fn, pay, html⟩]⟩⟩).rows =
      [(subj, [("source", some "link"), ("url", some u1)]),
       (subj, [("source", some "link"), ("url", some u2)])] ∧
    (main env ⟨[id], fun _ => some ⟨subj, [⟨"text/html", fn, pay, html⟩]⟩⟩).marked = [id] := by
  have hinfo : extract_invoice_info env ⟨subj, [⟨"text/html", fn, pay, html⟩]⟩ =
      [[("source", some "link"), ("url", some u1)],
       [("source", some "link"), ("url", some u2)]] := by
    simp [extract_invoice_info, candidates, candidatesOfPart, isPdfCand, isHtmlPart,
      hfind, linkRec, hd1, hd2, he1, he2, dictSet]
  have hstep : handleMessage env initSt (id, ⟨subj, [⟨"text/html", fn, pay, html⟩]⟩) =
      ⟨2, [(subj, [("source", some "link"), ("url", some u1)]),
           (subj, [("source", some "link"), ("url", some u2)])], [subj], [], [id]⟩ := by
    simp [handleMessage, handleTry, hinfo, storeAll_ok env hst, initSt]
  rw [main_single env id _ hc hs hm, hstep]
  exact ⟨rfl, rfl, rfl, rfl⟩

/-- Witness for C1 at the concrete scenario B inputs. -/
theorem C1_witness :
    findallPdf "<a href=\"https://y.test/a.pdf\">x</a> <a href=\"https://y.test/b.pdf?token=1\">y</a>" =
      ["https://y.test/a.pdf", "https://y.test/b.pdf?token=1"] ∧
    ((main ⟨extract_invoice_from_pdf, fun _ => some [37], fun _ => true, fun _ => true,
        true, true, none, true⟩
      ⟨[2], fun _ => some ⟨"Bill2",
        [⟨"text/html", none, [],
          "<a href=\"https://y.test/a.pdf\">x</a> <a href=\"https://y.test/b.pdf?token=1\">y</a>"⟩]⟩⟩).processed = ["Bill2"] ∧
     (main ⟨extract_invoice_from_pdf, fun _ => some [37], fun _ => true, fun _ => true,
        true, true, none, true⟩
      ⟨[2], fun _ => some ⟨"Bill2",
        [⟨"text/html", none, [],
          "<a href=\"https://y.test/a.pdf\">x</a> <a href=\"https://y.test/b.pdf?token=1\">y</a>"⟩]⟩⟩).failed = [] ∧
     (main ⟨extract_invoice_from_pdf, fun _ => some [37], fun _ => true, fun _ => true,
        true, true, none, true⟩
      ⟨[2], fun _ => some ⟨"Bill2",
        [⟨"text/html", none, [],
          "<a href=\"https://y.test/a.pdf\">x</a> <a href=\"https://y.test/b.pdf?token=1\">y</a>"⟩]⟩⟩).rows =
      [("Bill2", [("source", some "link"), ("url", some "https://y.test/a.pdf")]),
       ("Bill2", [("source", some "link"), ("url", some "https://y.test/b.pdf?token=1")])] ∧
     (main ⟨extract_invoice_from_pdf, fun _ => some [37], fun _ => true, fun _ => true,
        true, true, none, true⟩
      ⟨[2], fun _ => some ⟨"Bill2",
        [⟨"text/html", none, [],
          "<a href=\"https://y.test/a.pdf\">x</a> <a href=\"https://y.test/b.pdf?token=1\">y</a>"⟩]⟩⟩).marked = [2]) :=
  ⟨by decide,
   C1_empty_extraction_processed _ 2 "Bill2" none [] _ _ _ [37] [37]
     rfl rfl rfl (fun _ => rfl) (by decide) rfl rfl rfl rfl⟩

/-- Claim C6 (confirmed): for every message containing exactly one
non-empty PDF attachment (any other parts allowed), with all stores
succeeding, exactly one persisted record carries the `source=attachment`
provenance, and that record is the extraction result merged with
`source=attachment` and the filename of the attachment (`attRec`); the
message is classified `processed`, its subject is bulleted under the
`Processed invoices:` summary header, the message is marked seen, and the
merged record contains the provenance pair, the filename pair and every
extracted field whose key is not overridden by the provenance keys. -/
theorem C6_single_attachment_processed (env : Env) (id : Nat) (m : Message) (p : Part)
    (u : String)
    (hc : env.connectOk = true) (hs : env.selectOk = true) (hm : env.markSeenOk id = true)
    (hst : ∀ n, env.storeOk n = true)
    (hone : m.parts.filter isPdfCand = [p])
    (_hne : env.extractor p.payload ≠ [])
    (hurl : env.webhookUrl = some u) :
    (main env ⟨[id], fun _ => some m⟩).rows.filter
        (fun r => decide (("source", (some "attachment" : Val)) ∈ r.2)) =
      [(m.subject, attRec env p)] ∧
    (main env ⟨[id], fun _ => some m⟩).processed = [m.subject] ∧
    (main env ⟨[id], fun _ => some m⟩).failed = [] ∧
    (main env ⟨[id], fun _ => some m⟩).marked = [id] ∧
    (main env ⟨[id], fun _ => some m⟩).notifyCalls =
      [NotifyResult.posted ⟨"text", "Processed invoices:\n - " ++ m.subject⟩ env.postOk] ∧
    ("source", some "attachment") ∈ attRec env p ∧
    ("filename", p.filename) ∈ attRec env p ∧
    (∀ kv ∈ env.extractor p.payload, kv.1 ≠ "source" → kv.1 ≠ "filename" →
      kv ∈ attRec env p) := by
  have hfilt : (extract_invoice_info env m).filter
      (fun d => decide (("source", (some "attachment" : Val)) ∈ d)) = [attRec env p] :=
    candidates_filter_attachment env p m.parts hone
  have hne2 : extract_invoice_info env m ≠ [] := by
    intro h0
    rw [h0] at hfilt
    simp at hfilt
  have hE : (extract_invoice_info env m).isEmpty = false := by
    cases hE2 : (extract_invoice_info env m).isEmpty
    · rfl
    · exact absurd (List.isEmpty_iff.1 hE2) hne2
  have hstep : handleMessage env initSt (id, m) =
      ⟨(extract_invoice_info env m).length,
       (extract_invoice_info env m).map (fun d => (m.subject, d)),
       [m.subject], [], [id]⟩ := by
    simp [handleMessage, handleTry, hE, storeAll_ok env hst, initSt]
  have hsrc : ("source", (some "attachment" : Val)) ∈ attRec env p :=
    mem_dictSet_of_ne _ _ _ _ _ (mem_dictSet_self _ _ _) (by decide)
  have hfn : ("filename", p.filename) ∈ attRec env p := mem_dictSet_self _ _ _
  have hext : ∀ kv ∈ env.extractor p.payload, kv.1 ≠ "source" → kv.1 ≠ "filename" →
      kv ∈ attRec env p := by
    intro kv hkv h1 h2
    obtain ⟨k, v⟩ := kv
    exact mem_dictSet_of_ne _ _ _ _ _ (mem_dictSet_of_ne _ _ _ _ _ hkv h1) h2
  rw [main_single env id m hc hs hm, hstep]
  refine ⟨?_, rfl, rfl, rfl, ?_, hsrc, hfn, hext⟩
  · show ((extract_invoice_info env m).map (fun d => (m.subject, d))).filter
        (fun r => decide (("source", (some "attachment" : Val)) ∈ r.2)) =
      [(m.subject, attRec env p)]
    rw [filter_att_map_pair, hfilt]
    rfl
  · simp [send_wechat_notification, hurl, summaryText_single]

/-- Witness for C6: a message carrying both the scenario A attachment and
an HTML body with a working PDF link; two rows are persisted, and exactly
one of them carries the attachment provenance. -/
theorem C6_witness :
    (⟨"Invoice #1", [⟨"application/pdf", some "inv1.pdf", [1, 2], ""⟩,
        ⟨"text/html", none, [], "see http://x/l.pdf"⟩]⟩ : Message).parts.filter
        isPdfCand = [⟨"application/pdf", some "inv1.pdf", [1, 2], ""⟩] ∧
    (⟨fun _ => [("amount", some "100.00")], fun _ => some [9], fun _ => true, fun _ => true,
        true, true, some "https://wh.test/k", true⟩ : Env).extractor
        (⟨"application/pdf", some "inv1.pdf", [1, 2], ""⟩ : Part).payload ≠ [] ∧
    (main ⟨fun _ => [("amount", some "100.00")], fun _ => some [9], fun _ => true,
        fun _ => true, true, true, some "https://wh.test/k", true⟩
      ⟨[1], fun _ => some ⟨"Invoice #1", [⟨"application/pdf", some "inv1.pdf", [1, 2], ""⟩,
        ⟨"text/html", none, [], "see http://x/l.pdf"⟩]⟩⟩).rows.filter
        (fun r => decide (("source", (some "attachment" : Val)) ∈ r.2)) =
      [("Invoice #1",
        attRec ⟨fun _ => [("amount", some "100.00")], fun _ => some [9], fun _ => true,
          fun _ => true, true, true, some "https://wh.test/k", true⟩
          ⟨"application/pdf", some "inv1.pdf", [1, 2], ""⟩)] ∧
    (main ⟨fun _ => [("amount", some "100.00")], fun _ => some [9], fun _ => true,
        fun _ => true, true, true, some "https://wh.test/k", true⟩
      ⟨[1], fun _ => some ⟨"Invoice #1", [⟨"application/pdf", some "inv1.pdf", [1, 2], ""⟩,
        ⟨"text/html", none, [], "see http://x/l.pdf"⟩]⟩⟩).processed = ["Invoice #1"] ∧
    (main ⟨fun _ => [("amount", some "100.00")], fun _ => some [9], fun _ => true,
        fun _ => true, true, true, some "https://wh.test/k", true⟩
      ⟨[1], fun _ => some ⟨"Invoice #1", [⟨"application/pdf", some "inv1.pdf", [1, 2], ""⟩,
        ⟨"text/html", none, [], "see http://x/l.pdf"⟩]⟩⟩).marked = [1] ∧
    (main ⟨fun _ => [("amount", some "100.00")], fun _ => some [9], fun _ => true,
        fun _ => true, true, true, some "https://wh.test/k", true⟩
      ⟨[1], fun _ => some ⟨"Invoice #1", [⟨"application/pdf", some "inv1.pdf", [1, 2], ""⟩,
        ⟨"text/html", none, [], "see http://x/l.pdf"⟩]⟩⟩).rows.length = 2 := by
  have T := C6_single_attachment_processed
    ⟨fun _ => [("amount", some "100.00")], fun _ => some [9], fun _ => true,
      fun _ => true, true, true, some "https://wh.test/k", true⟩ 1
    ⟨"Invoice #1", [⟨"application/pdf", some "inv1.pdf", [1, 2], ""⟩,
      ⟨"text/html", none, [], "see http://x/l.pdf"⟩]⟩
    ⟨"application/pdf", some "inv1.pdf", [1, 2], ""⟩ "https://wh.test/k"
    rfl rfl rfl (fun _ => rfl) (by decide) (by decide) rfl
  exact ⟨by decide, by decide, T.1, T.2.1, T.2.2.2.1, by decide⟩

/-- Claim C7 (confirmed): for an HTML part, a download is attempted for
every substring matched by the PDF-link pattern (so N matches give N
attempts); a match whose download fails contributes no candidate while the
records of the part are exactly those of the remaining matches, and the
contributions of the other parts of the message are unaffected. -/
theorem C7_link_downloads (env : Env) (p : Part) (hp : isHtmlPart p = true) :
    (candidatesOfPart env p).2 = findallPdf p.htmlText ∧
    (∀ xs u ys, findallPdf p.htmlText = xs ++ u :: ys → env.download u = none →
      (candidatesOfPart env p).1 = (xs ++ ys).filterMap (linkRec env)) ∧
    (∀ s pre post, extract_invoice_info env ⟨s, pre ++ p :: post⟩ =
      extract_invoice_info env ⟨s, pre⟩ ++ (candidatesOfPart env p).1 ++
        extract_invoice_info env ⟨s, post⟩) := by
  have hct : p.contentType = "text/html" := by
    simpa [isHtmlPart] using hp
  have hpdf : isPdfCand p = false := by
    simp [isPdfCand, hct]
  refine ⟨?_, ?_, ?_⟩
  · simp [candidatesOfPart, hpdf, hp]
  · intro xs u ys hsplit hdl
    simp [candidatesOfPart, hpdf, hp, hsplit, List.filterMap_append, List.filterMap_cons,
      linkRec, hdl]
  · intro s pre post
    simp [extract_invoice_info, candidates_append, candidates]

/-- Witness for C7: three matched links, the middle download fails, the
records are those of the first and third links. -/
theorem C7_witness :
    isHtmlPart ⟨"text/html", none, [],
      "http://x/a.pdf http://bad.example/b.pdf http://x/c.pdf"⟩ = true ∧
    findallPdf "http://x/a.pdf http://bad.example/b.pdf http://x/c.pdf" =
      ["http://x/a.pdf"] ++ "http://bad.example/b.pdf" :: ["http://x/c.pdf"] ∧
    (⟨extract_invoice_from_pdf, fun v => if v == "http://bad.example/b.pdf" then none else some [9],
        fun _ => true, fun _ => true, true, true, none, true⟩ : Env).download
      "http://bad.example/b.pdf" = none ∧
    (candidatesOfPart
        ⟨extract_invoice_from_pdf, fun v => if v == "http://bad.example/b.pdf" then none else some [9],
          fun _ => true, fun _ => true, true, true, none, true⟩
        ⟨"text/html", none, [],
          "http://x/a.pdf http://bad.example/b.pdf http://x/c.pdf"⟩).1 =
      (["http://x/a.pdf"] ++ ["http://x/c.pdf"]).filterMap
        (linkRec ⟨extract_invoice_from_pdf,
          fun v => if v == "http://bad.example/b.pdf" then none else some [9],
          fun _ => true, fun _ => true, true, true, none, true⟩) :=
  ⟨rfl, by decide, by decide,
   (C7_link_downloads
       ⟨extract_invoice_from_pdf, fun v => if v == "http://bad.example/b.pdf" then none else some [9],
         fun _ => true, fun _ => true, true, true, none, true⟩
       ⟨"text/html", none, [],
         "http://x/a.pdf http://bad.example/b.pdf http://x/c.pdf"⟩
       (by decide)).2.1 ["http://x/a.pdf"] "http://bad.example/b.pdf"
     ["http://x/c.pdf"] (by decide) (by decide)⟩

/-- Claim C8 (confirmed): when the run connects, selects and no mark-seen
raises, the notifier is never called when both summary lists are empty and
is called exactly once with the summary when either is non-empty; the run
never crashes on a notification failure; an unconfigured endpoint makes the
call a no-op warning, and a configured one POSTs the payload whose
`msgtype` is `text` and whose `content` is the summary, succeeding or not
without raising. -/
theorem C8_notifier (env : Env) (mb : Mailbox)
    (hc : env.connectOk = true) (hs : env.selectOk = true)
    (hm : ∀ i, env.markSeenOk i = true) :
    ((main env mb).processed = [] ∧ (main env mb).failed = [] →
      (main env mb).notifyCalls = []) ∧
    ((main env mb).processed ≠ [] ∨ (main env mb).failed ≠ [] →
      (main env mb).notifyCalls =
        [send_wechat_notification env
          (summaryText (main env mb).processed (main env mb).failed)]) ∧
    (main env mb).crashed = false ∧
    (∀ s, env.webhookUrl = none →
      send_wechat_notification env s = NotifyResult.skippedNoUrl) ∧
    (∀ s v, env.webhookUrl = some v →
      send_wechat_notification env s = NotifyResult.posted ⟨"text", s⟩ env.postOk) := by
  rw [main_no_abort env mb hc hs hm]
  refine ⟨?_, ?_, rfl, ?_, ?_⟩
  · rintro ⟨h1, h2⟩
    dsimp only at h1 h2 ⊢
    simp [h1, h2]
  · intro h
    dsimp only at h ⊢
    have hP : ((runLoop env (fetchedPairs mb) initSt).1.processed.isEmpty &&
        (runLoop env (fetchedPairs mb) initSt).1.failed.isEmpty) = false := by
      rcases h with h | h
      · cases hE : (runLoop env (fetchedPairs mb) initSt).1.processed.isEmpty
        · simp [hE]
        · exact absurd (List.isEmpty_iff.1 hE) h
      · cases hE : (runLoop env (fetchedPairs mb) initSt).1.failed.isEmpty
        · simp [hE]
        · exact absurd (List.isEmpty_iff.1 hE) h
    simp [hP]
  · intro s hn
    simp [send_wechat_notification, hn]
  · intro s v hn
    simp [send_wechat_notification, hn]

/-- Witness for C8: a run with one failed message notifies once with the
summary. -/
theorem C8_witness :
    (∀ i, (⟨extract_invoice_from_pdf, fun _ => none, fun _ => true, fun _ => true,
        true, true, some "https://wh.test/w", true⟩ : Env).markSeenOk i = true) ∧
    (main ⟨extract_invoice_from_pdf, fun _ => none, fun _ => true, fun _ => true,
        true, true, some "https://wh.test/w", true⟩
      ⟨[1], fun _ => some ⟨"S", []⟩⟩).failed ≠ [] ∧
    (main ⟨extract_invoice_from_pdf, fun _ => none, fun _ => true, fun _ => true,
        true, true, some "https://wh.test/w", true⟩
      ⟨[1], fun _ => some ⟨"S", []⟩⟩).notifyCalls =
      [send_wechat_notification
        ⟨extract_invoice_from_pdf, fun _ => none, fun _ => true, fun _ => true,
          true, true, some "https://wh.test/w", true⟩
        (summaryText
          (main ⟨extract_invoice_from_pdf, fun _ => none, fun _ => true, fun _ => true,
              true, true, some "https://wh.test/w", true⟩
            ⟨[1], fun _ => some ⟨"S", []⟩⟩).processed
          (main ⟨extract_invoice_from_pdf, fun _ => none, fun _ => true, fun _ => true,
              true, true, some "https://wh.test/w", true⟩
            ⟨[1], fun _ => some ⟨"S", []⟩⟩).failed)] :=
  ⟨fun _ => rfl, by decide,
   (C8_notifier _ _ rfl rfl (fun _ => rfl)).2.1 (Or.inr (by decide))⟩

/-- Claim C9 (confirmed): with the shipped placeholder extractor every
record is provenance-only, extraction is empty exactly when the message has
no live candidate (a PDF part with a truthy payload or a matched link whose
download succeeds), and, with stores succeeding, the `try` body classifies
the message `processed` exactly when it has a live candidate — the
document bytes never influence the outcome. -/
theorem C9_stub_extractor (env : Env) (msg : Message) (st : St)
    (hx : env.extractor = extract_invoice_from_pdf)
    (hst : ∀ n, env.storeOk n = true) :
    (∀ d ∈ extract_invoice_info env msg, provenanceOnly d) ∧
    (extract_invoice_info env msg = [] ↔ hasLiveCandidate env msg.parts = false) ∧
    ((handleTry env st msg).processed = st.processed ++ [msg.subject] ↔
      hasLiveCandidate env msg.parts = true) := by
  have hiff : extract_invoice_info env msg = [] ↔ hasLiveCandidate env msg.parts = false :=
    candidates_eq_nil_iff env msg.parts
  refine ⟨provenance_stub env hx msg.parts, hiff, ?_, ?_⟩
  · intro h
    by_contra hlive
    rw [Bool.not_eq_true] at hlive
    have hnil : extract_invoice_info env msg = [] := hiff.2 hlive
    simp [handleTry, hnil] at h
  · intro hlive
    have hne : extract_invoice_info env msg ≠ [] := by
      intro hnil
      rw [hiff] at hnil
      rw [hnil] at hlive
      cases hlive
    have hE : (extract_invoice_info env msg).isEmpty = false := by
      cases hE2 : (extract_invoice_info env msg).isEmpty
      · rfl
      · exact absurd (List.isEmpty_iff.1 hE2) hne
    simp [handleTry, hE, storeAll_ok env hst]

/-- Witness for C9: the stub extractor on a one-attachment message. -/
theorem C9_witness :
    ((⟨extract_invoice_from_pdf, fun _ => some [7], fun _ => true, fun _ => true,
        true, true, none, true⟩ : Env).extractor = extract_invoice_from_pdf) ∧
    (∀ n, (⟨extract_invoice_from_pdf, fun _ => some [7], fun _ => true, fun _ => true,
        true, true, none, true⟩ : Env).storeOk n = true) ∧
    ((∀ d ∈ extract_invoice_info
        ⟨extract_invoice_from_pdf, fun _ => some [7], fun _ => true, fun _ => true,
          true, true, none, true⟩
        ⟨"Inv", [⟨"application/pdf", some "a.pdf", [1], ""⟩]⟩, provenanceOnly d) ∧
     (extract_invoice_info
        ⟨extract_invoice_from_pdf, fun _ => some [7], fun _ => true, fun _ => true,
          true, true, none, true⟩
        ⟨"Inv", [⟨"application/pdf", some "a.pdf", [1], ""⟩]⟩ = [] ↔
      hasLiveCandidate
        ⟨extract_invoice_from_pdf, fun _ => some [7], fun _ => true, fun _ => true,
          true, true, none, true⟩
        (⟨"Inv", [⟨"application/pdf", some "a.pdf", [1], ""⟩]⟩ : Message).parts = false) ∧
     ((handleTry
        ⟨extract_invoice_from_pdf, fun _ => some [7], fun _ => true, fun _ => true,
          true, true, none, true⟩ initSt
        ⟨"Inv", [⟨"application/pdf", some "a.pdf", [1], ""⟩]⟩).processed =
        initSt.processed ++ [(⟨"Inv", [⟨"application/pdf", some "a.pdf", [1], ""⟩]⟩ : Message).subject] ↔
      hasLiveCandidate
        ⟨extract_invoice_from_pdf, fun _ => some [7], fun _ => true, fun _ => true,
          true, true, none, true⟩
        (⟨"Inv", [⟨"application/pdf", some "a.pdf", [1], ""⟩]⟩ : Message).parts = true)) :=
  ⟨rfl, fun _ => rfl,
   C9_stub_extractor _ ⟨"Inv", [⟨"application/pdf", some "a.pdf", [1], ""⟩]⟩ initSt
     rfl (fun _ => rfl)⟩

/-- Claim C10 (confirmed): all candidates of a message are produced before
any store (the extraction result does not depend on the store oracle), and
when the first store commits and the second raises, the committed row stays
in the database while the message is classified `failed` — a failed
message can have persisted rows. -/
theorem C10_non_atomic_store (env : Env) (id : Nat) (m : Message) (d1 d2 : Dict)
    (ds : List Dict)
    (hc : env.connectOk = true) (hs : env.selectOk = true) (hm : env.markSeenOk id = true)
    (hinf : extract_invoice_info env m = d1 :: d2 :: ds)
    (h0 : env.storeOk 0 = true) (h1 : env.storeOk 1 = false) :
    (main env ⟨[id], fun _ => some m⟩).failed = [m.subject] ∧
    (main env ⟨[id], fun _ => some m⟩).processed = [] ∧
    (main env ⟨[id], fun _ => some m⟩).rows = [(m.subject, d1)] ∧
    (main env ⟨[id], fun _ => some m⟩).marked = [id] ∧
    (∀ g, extract_invoice_info { env with storeOk := g } m = extract_invoice_info env m) := by
  have hstore : storeAll env 0 m.subject (d1 :: d2 :: ds) = (2, [(m.subject, d1)], false) := by
    simp [storeAll, h0, h1]
  have hstep : handleMessage env initSt (id, m) =
      ⟨2, [(m.subject, d1)], [], [m.subject], [id]⟩ := by
    simp [handleMessage, handleTry, hinf, hstore, initSt]
  rw [main_single env id m hc hs hm, hstep]
  exact ⟨rfl, rfl, rfl, rfl, fun g => candidates_storeOk_irrel env g m.parts⟩

/-- Witness for C10: two PDF attachments, the first store commits and the
second raises; one row persists and the message is failed. -/
theorem C10_witness :
    extract_invoice_info
      ⟨extract_invoice_from_pdf, fun _ => none, fun n => n == 0, fun _ => true,
        true, true, none, true⟩
      ⟨"S", [⟨"application/pdf", some "a.pdf", [1], ""⟩,
             ⟨"application/pdf", some "b.pdf", [2], ""⟩]⟩ =
      [("source", some "attachment"), ("filename", some "a.pdf")] ::
      [("source", some "attachment"), ("filename", some "b.pdf")] :: [] ∧
    (⟨extract_invoice_from_pdf, fun _ => none, fun n => n == 0, fun _ => true,
        true, true, none, true⟩ : Env).storeOk 0 = true ∧
    (⟨extract_invoice_from_pdf, fun _ => none, fun n => n == 0, fun _ => true,
        true, true, none, true⟩ : Env).storeOk 1 = false ∧
    (main ⟨extract_invoice_from_pdf, fun _ => none, fun n => n == 0, fun _ => true,
        true, true, none, true⟩
      ⟨[1], fun _ => some ⟨"S", [⟨"application/pdf", some "a.pdf", [1], ""⟩,
                                 ⟨"application/pdf", some "b.pdf", [2], ""⟩]⟩⟩).failed = ["S"] ∧
    (main ⟨extract_invoice_from_pdf, fun _ => none, fun n => n == 0, fun _ => true,
        true, true, none, true⟩
      ⟨[1], fun _ => some ⟨"S", [⟨"application/pdf", some "a.pdf", [1], ""⟩,
                                 ⟨"application/pdf", some "b.pdf", [2], ""⟩]⟩⟩).processed = [] ∧
    (main ⟨extract_invoice_from_pdf, fun _ => none, fun n => n == 0, fun _ => true,
        true, true, none, true⟩
      ⟨[1], fun _ => some ⟨"S", [⟨"application/pdf", some "a.pdf", [1], ""⟩,
                                 ⟨"application/pdf", some "b.pdf", [2], ""⟩]⟩⟩).rows =
      [("S", [("source", some "attachment"), ("filename", some "a.pdf")])] ∧
    (main ⟨extract_invoice_from_pdf, fun _ => none, fun n => n == 0, fun _ => true,
        true, true, none, true⟩
      ⟨[1], fun _ => some ⟨"S", [⟨"application/pdf", some "a.pdf", [1], ""⟩,
                                 ⟨"application/pdf", some "b.pdf", [2], ""⟩]⟩⟩).marked = [1] := by
  have T := C10_non_atomic_store
    ⟨extract_invoice_from_pdf, fun _ => none, fun n => n == 0, fun _ => true,
      true, true, none, true⟩ 1
    ⟨"S", [⟨"application/pdf", some "a.pdf", [1], ""⟩,
           ⟨"application/pdf", some "b.pdf", [2], ""⟩]⟩
    [("source", some "attachment"), ("filename", some "a.pdf")]
    [("source", some "attachment"), ("filename", some "b.pdf")] []
    rfl rfl rfl (by decide) rfl rfl
  exact ⟨by decide, rfl, rfl, T.1, T.2.1, T.2.2.1, T.2.2.2.1⟩

end InvoiceProc
